import Mathlib

/-!
# Verification of the FastAPI posting service (Peppendom/FastAPI_endpoints_v.1)

Shallow embedding of the service's core: the JWT token service, the credential
hasher, the user/post repositories and service layer, the response cache, and
the HTTP endpoint handlers (`sign_up`, `add_post`, `delete_post`), translated
from `app/config.py`, `app/business_logic/services.py`, `app/db/repositories.py`,
`app/db/models.py`, `app/routing/dependencies.py` and `app/routing/endpoints.py`.

Python exceptions are modelled with `Except`: each handler body (the `try:`
block) returns `Except ε α` for the kind of exception it can raise — an
`HTTPException` status or a storage `IntegrityError` — and the handler's
`except Exception:` clause is the function `wrap500`, which replaces any
raised error by the generic 500 Internal error — exactly as in the source,
where the handler-raised `HTTPException` instances are themselves subclasses
of `Exception` and are therefore caught by the blanket handler.

Time is modelled as a `Nat` of Unix seconds passed explicitly where the source
calls `datetime.now()`. Freshly generated `uuid4` identifiers and bcrypt salts
are modelled as explicitly passed parameters.
-/

/-- Source `app/config.py`: `JWT_TOKEN_INVALIDATION_TIME = 60 * 60 * 3` (seconds). -/
def JWT_TOKEN_INVALIDATION_TIME : Nat := 60 * 60 * 3

/-- Source `app/config.py`: the signing algorithm `JWT_ALGORITHM = "HS256"`. -/
def JWT_ALGORITHM : String := "HS256"

/-- Source `app/config.py`: the symmetric signing secret `JWT_KEY`. The literal
300-character secret of the source is abbreviated here: it contains characters
awkward to quote, and every property proved below depends only on whether two
keys are equal, never on the secret's spelling. -/
def JWT_KEY : String := "JWT-KEY-86QEo9-abbreviated-secret"

/-- Source `app/config.py`: `PAYLOAD_MAX_SIZE = 1_000_000` (bytes). -/
def PAYLOAD_MAX_SIZE : Nat := 1000000

/-- Source `app/config.py`: `CACHE_ITEM_LIMIT = 100`. -/
def CACHE_ITEM_LIMIT : Nat := 100

/-- Source `app/config.py`: `CACHE_TIME_TO_LIVE = 60 * 5` (seconds). -/
def CACHE_TIME_TO_LIVE : Nat := 60 * 5

/-- The claim set carried by a JWT. `services.JWT.create_token` encodes the
dict `{"sub": <user id>, "exp": <instant>}`; a token decoded by PyJWT may lack
either claim, so both are `Option`s. `exp` is a Unix timestamp in seconds. -/
structure Claims where
  sub : Option String
  exp : Option Nat
deriving DecidableEq, Repr

/-- A JWT string as seen by `jwt.decode`: either a structurally well-formed
token — a claim set signed with some key under some algorithm — or a malformed
string that fails decoding outright. -/
inductive Token where
  | signed (claims : Claims) (key : String) (alg : String)
  | malformed (raw : String)
deriving DecidableEq, Repr

/-- PyJWT's expiration check (leeway 0): a present `exp` claim makes the token
expired as soon as `exp <= now`; a token without `exp` never expires. -/
def expOk (c : Claims) (now : Nat) : Bool :=
  match c.exp with
  | none => true
  | some e => decide (now < e)

/-- Source `services.JWT.create_token`: copies the given data (here: the `sub` claim),
adds `exp = now + JWT_TOKEN_INVALIDATION_TIME`, and signs with the configured
key and algorithm. -/
def JWT.create_token (sub : Option String) (now : Nat) : Token :=
  Token.signed ⟨sub, some (now + JWT_TOKEN_INVALIDATION_TIME)⟩ JWT_KEY JWT_ALGORITHM

/-- Source `services.JWT._decode_token`: `jwt.decode(token, KEY, algorithms=[ALGORITHM])`
returns the payload on success; every `jwt.PyJWTError` (malformed token, wrong
algorithm, bad signature, expired `exp`) is caught and mapped to `None`. -/
def JWT.decode_token (t : Token) (now : Nat) : Option Claims :=
  match t with
  | Token.malformed _ => none
  | Token.signed c k a =>
    if k == JWT_KEY && a == JWT_ALGORITHM && expOk c now then some c else none

/-- Source `services.JWT.validate_token`: true iff `_decode_token` succeeds. -/
def JWT.validate_token (t : Token) (now : Nat) : Bool :=
  (JWT.decode_token t now).isSome

/-- Source `services.JWT.get_user_id`: decodes the token and returns the `"sub"`
claim when the payload decodes and carries one, `None` otherwise. -/
def JWT.get_user_id (t : Token) (now : Nat) : Option String :=
  match JWT.decode_token t now with
  | some payload => payload.sub
  | none => none

/-- Spec §4.2: the token's signature is valid under the configured secret and
algorithm. Stated from the spec's words, to be compared with the decoder
translated from the source. -/
def signatureValid (t : Token) : Prop :=
  match t with
  | Token.malformed _ => False
  | Token.signed _ k a => k = JWT_KEY ∧ a = JWT_ALGORITHM

/-- Spec §4.2: the token's expiration has not passed at instant `now` (a token
carrying no expiration claim has no expiration to pass). Stated from the
spec's words. -/
def expirationNotPassed (t : Token) (now : Nat) : Prop :=
  match t with
  | Token.malformed _ => True
  | Token.signed c _ _ => ∀ e, c.exp = some e → now < e

/-- Modelled from the spec: the Credential Hasher (`User.pwd_context`, a
passlib `CryptContext` over the configured bcrypt scheme, `services.py` line
30) is third-party library code absent from `src/`. Spec §4.1: `hash` produces
a salted one-way digest embedding its salt and parameters, and `verify`
recomputes against them. The digest is modelled as the pair of the salt and
the one-way image of the plaintext; since only the boolean behavior of
`verify` is observable in this development, the image is kept as the plaintext
itself, which models the collision-freedom the spec assumes of the hasher. -/
structure Digest where
  salt : String
  image : String
deriving DecidableEq, Repr

/-- Modelled from the spec (§4.1): `pwd_context.hash` salts and digests the
plaintext. The salt, generated internally by passlib, is passed explicitly. -/
def pwd_hash (salt plaintext : String) : Digest :=
  ⟨salt, plaintext⟩

/-- Modelled from the spec (§4.1): `pwd_context.verify` recomputes the digest
of the candidate plaintext under the salt and parameters embedded in the
stored digest and compares. -/
def pwd_verify (plaintext : String) (d : Digest) : Bool :=
  pwd_hash d.salt plaintext == d

/-- Source `app/db/models.py` `User`: uuid4 primary key `id`, unique `email`, and the
stored password hash (called `password` in the source). -/
structure UserModel where
  id : String
  email : String
  password : Digest
deriving DecidableEq, Repr

/-- Source `app/db/models.py` `Post`: uuid4 primary key `id`, owning `user_id`
foreign key declared `nullable = False` (NOT NULL), and the text body. A
persisted row therefore always carries a present owner id; an attempt to
commit a row with an absent owner is rejected by the schema (see
`PostRepository.create`). -/
structure PostModel where
  id : String
  user_id : String
  text : String
deriving DecidableEq, Repr

/-- The storage-level exception surfaced by `db.commit()`: SQLAlchemy raises
`IntegrityError` when an insert violates a schema constraint, here the
NOT NULL constraint on `posts.user_id` (`models.py` line 24). -/
inductive DBError where
  | integrityError
deriving DecidableEq, Repr

/-- A user table: the rows in insertion order. -/
abbrev UserDB := List UserModel

/-- A post table: the rows in insertion order. -/
abbrev PostDB := List PostModel

/-- Source `repositories.UserRepository.get_by_email`: `.filter(email == email).first()`
— the first row matching the email, if any. -/
def UserRepository.get_by_email (db : UserDB) (email : String) : Option UserModel :=
  List.find? (fun u => u.email == email) db

/-- Source `repositories.UserRepository.create`: inserts and returns a new user row;
the uuid4 id is modelled as the explicitly passed `freshId`. -/
def UserRepository.create (db : UserDB) (freshId email : String) (password : Digest) :
    UserModel × UserDB :=
  let user : UserModel := ⟨freshId, email, password⟩
  (user, db ++ [user])

/-- Source `repositories.PostRepository.get_by_id`: the first row matching the id. -/
def PostRepository.get_by_id (db : PostDB) (post_id : String) : Option PostModel :=
  List.find? (fun p => p.id == post_id) db

/-- Source `repositories.PostRepository.create`: builds the row, `db.add`s it
and `db.commit()`s, returning the new post. The annotation says `user_id: str`,
but Python does not enforce it and `endpoints.add_post` forwards
`JWT.get_user_id`'s possibly-absent result, so the input is an `Option`; a
commit with an absent owner violates the NOT NULL constraint on
`posts.user_id` and raises `IntegrityError`, the error case. The uuid4 id is
modelled as the explicitly passed `freshId`. -/
def PostRepository.create (db : PostDB) (freshId : String) (user_id : Option String)
    (text : String) : Except DBError (PostModel × PostDB) :=
  match user_id with
  | none => Except.error DBError.integrityError
  | some uid =>
    let post : PostModel := ⟨freshId, uid, text⟩
    Except.ok (post, db ++ [post])

/-- Source `repositories.PostRepository.get_list_by_user`: all rows owned by
the given user. The caller may pass an absent id (the handler forwards
`JWT.get_user_id`'s result); as with SQL's NULL comparison, it matches no
row. -/
def PostRepository.get_list_by_user (db : PostDB) (user_id : Option String) : List PostModel :=
  List.filter (fun p => some p.user_id == user_id) db

/-- Source `repositories.PostRepository.delete`: looks the post up by id; returns
`False` (leaving the table unchanged) when absent, otherwise removes that row
and returns `True`. -/
def PostRepository.delete (db : PostDB) (post_id : String) : Bool × PostDB :=
  match PostRepository.get_by_id db post_id with
  | none => (false, db)
  | some _ => (true, List.eraseP (fun p => p.id == post_id) db)

/-- Source `services.User.create_user`: returns `None` when a user with the email
already exists; otherwise hashes the password and persists a new user. The
bcrypt salt drawn by passlib is the explicit `salt` parameter. -/
def User.create_user (db : UserDB) (freshId salt email password : String) :
    Option (UserModel × UserDB) :=
  if (UserRepository.get_by_email db email).isSome then none
  else some (UserRepository.create db freshId email (pwd_hash salt password))

/-- Source `services.User.get_by_email`: delegates to the repository. -/
def User.get_by_email (db : UserDB) (email : String) : Option UserModel :=
  UserRepository.get_by_email db email

/-- Source `services.User.verify_credentials`: retrieves the user by email, returns
`False` when absent, otherwise compares the password to the stored hash. -/
def User.verify_credentials (db : UserDB) (email password : String) : Bool :=
  match User.get_by_email db email with
  | none => false
  | some user => pwd_verify password user.password

/-- Source `services.Post.add_post`: delegates to the repository; a storage
exception raised there propagates through this layer uncaught. -/
def Post.add_post (db : PostDB) (freshId : String) (user_id : Option String)
    (text : String) : Except DBError (PostModel × PostDB) :=
  PostRepository.create db freshId user_id text

/-- Source `services.Post.delete_post`: delegates to the repository. -/
def Post.delete_post (db : PostDB) (post_id : String) : Bool × PostDB :=
  PostRepository.delete db post_id

/-- The value cached per user by `get_list_of_posts`: the response listing of
(post_id, text) pairs. -/
abbrev CacheVal := List (String × String)

/-- One entry of the `cachetools.TTLCache` of `endpoints.py`: key (the hash
key of the user id, modelled by the user id itself), cached value, and the
insertion instant that the TTL is measured from. -/
structure CacheEntry where
  key : Option String
  val : CacheVal
  insertedAt : Nat
deriving DecidableEq, Repr

/-- The module-level `cache = TTLCache(maxsize=CACHE_ITEM_LIMIT, ttl=CACHE_TIME_TO_LIVE)`,
as a list of entries. `clear()` is the empty list. -/
abbrev Cache := List CacheEntry

/-- Lookup in the `TTLCache`: an entry answers only within `CACHE_TIME_TO_LIVE`
seconds of its insertion; expired entries are treated as absent. -/
def cacheGet (c : Cache) (k : Option String) (now : Nat) : Option CacheVal :=
  match List.find? (fun e => e.key == k && decide (now < e.insertedAt + CACHE_TIME_TO_LIVE)) c with
  | some e => some e.val
  | none => none

/-- The HTTP status outcomes the handlers produce (`fastapi.HTTPException`
status codes): 400 Bad Request (the duplicate-email Conflict signal),
401 Unauthorized, 403 Forbidden (missing bearer header), 404 Not Found,
413 Payload Too Large, 500 Internal Server Error. -/
inductive HStatus where
  | badRequest
  | unauthorized
  | forbidden
  | notFound
  | payloadTooLarge
  | internal
deriving DecidableEq, Repr

/-- Each endpoint's `except Exception:` clause: any exception escaping the
`try:` body — the `HTTPException`s the body itself raises (since
`fastapi.HTTPException` is a subclass of `Exception`) as much as storage
exceptions such as `IntegrityError` — is caught and replaced by the generic
500 Internal error. Generic in the body's error type, as the blanket clause
never inspects what it caught. -/
def wrap500 {ε α : Type} (body : Except ε α) : Except HStatus α :=
  match body with
  | Except.error _ => Except.error HStatus.internal
  | Except.ok a => Except.ok a

/-- The `try:` body of `endpoints.sign_up`: create the user (400 Bad Request —
the Conflict signal — when the email is taken), else mint a token for the new
user's id. -/
def Endpoints.sign_up_body (db : UserDB) (freshId salt email password : String) (now : Nat) :
    Except HStatus (Token × UserDB) :=
  match User.create_user db freshId salt email password with
  | none => Except.error HStatus.badRequest
  | some (user, db') => Except.ok (JWT.create_token (some user.id) now, db')

/-- Source `endpoints.sign_up`: the `try:` body under the blanket `except Exception:`
handler. -/
def Endpoints.sign_up (db : UserDB) (freshId salt email password : String) (now : Nat) :
    Except HStatus (Token × UserDB) :=
  wrap500 (Endpoints.sign_up_body db freshId salt email password now)

/-- The `try:` body of `endpoints.add_post`: extract the (possibly absent)
user id from the token, persist the post — a storage exception raised by the
insert propagates out of the body — then clear the whole cache and return
the new post's id. -/
def Endpoints.add_post_body (token : Token) (now : Nat) (freshId : String) (db : PostDB)
    (text : String) : Except DBError (String × PostDB × Cache) :=
  let user_id := JWT.get_user_id token now
  match Post.add_post db freshId user_id text with
  | Except.error e => Except.error e
  | Except.ok (post, db') => Except.ok (post.id, db', ([] : Cache))

/-- Source `endpoints.add_post`: the `dependencies.validate_token` gate (403 when the
bearer header is missing — modelled by `Token.malformed` covering any
unusable credential string — and 401 when `JWT.validate_token` rejects), the
`dependencies.validate_payload_size` gate (413 when the body exceeds
`PAYLOAD_MAX_SIZE`), then the `try:` body under `except Exception:`. The
cache is the module-level `cache`; on success the body has called
`cache.clear()`. -/
def Endpoints.add_post (token : Token) (now : Nat) (bodyLen : Nat) (freshId : String)
    (db : PostDB) (cache : Cache) (text : String) : Except HStatus (String × PostDB × Cache) :=
  if !JWT.validate_token token now then Except.error HStatus.unauthorized
  else if PAYLOAD_MAX_SIZE < bodyLen then Except.error HStatus.payloadTooLarge
  else
    let _ := cache
    wrap500 (Endpoints.add_post_body token now freshId db text)

/-- The `try:` body of `endpoints.delete_post`: delete by post id, raising 404
when no post matched, else clear the whole cache and report success. -/
def Endpoints.delete_post_body (db : PostDB) (post_id : String) :
    Except HStatus (String × PostDB × Cache) :=
  match Post.delete_post db post_id with
  | (false, _) => Except.error HStatus.notFound
  | (true, db') => Except.ok (post_id, db', ([] : Cache))

/-- Source `endpoints.delete_post`: the `dependencies.validate_token` gate (its
result `_` is discarded by the handler), then the `try:` body under
`except Exception:`. -/
def Endpoints.delete_post (token : Token) (now : Nat) (db : PostDB) (cache : Cache)
    (post_id : String) : Except HStatus (String × PostDB × Cache) :=
  if !JWT.validate_token token now then Except.error HStatus.unauthorized
  else
    let _ := cache
    wrap500 (Endpoints.delete_post_body db post_id)

/-- C2: issuing a token for subject `s` and immediately verifying and decoding
it succeeds — `validate_token` returns true on the freshly issued token and
`get_user_id` recovers exactly `s`. -/
theorem claim_C2_issue_then_verify_roundtrip (s : String) (now : Nat) :
    JWT.validate_token (JWT.create_token (some s) now) now = true ∧
    JWT.get_user_id (JWT.create_token (some s) now) now = some s := by
  refine ⟨?_, ?_⟩ <;>
    simp [JWT.validate_token, JWT.get_user_id, JWT.create_token, JWT.decode_token, expOk,
      JWT_TOKEN_INVALIDATION_TIME]

/-- C3: `validate_token` returns true exactly when the token's signature is
valid under the configured secret and algorithm and its expiration has not
passed; every malformed, mis-signed, or expired token yields false. The
side condition that no decode failure escapes as an exception is captured by
`JWT.decode_token` being a total function into `Option`, mirroring the
source's blanket `except jwt.PyJWTError: return None`. -/
theorem claim_C3_validate_iff_signed_and_unexpired (t : Token) (now : Nat) :
    JWT.validate_token t now = true ↔ signatureValid t ∧ expirationNotPassed t now := by
  cases t with
  | malformed raw =>
    simp [JWT.validate_token, JWT.decode_token, signatureValid, expirationNotPassed]
  | signed c k a =>
    cases hexp : c.exp with
    | none =>
      simp [JWT.validate_token, JWT.decode_token, signatureValid, expirationNotPassed,
        expOk, hexp]
    | some e =>
      simp [JWT.validate_token, JWT.decode_token, signatureValid, expirationNotPassed,
        expOk, hexp, and_assoc]

/-- C4: the configured TTL is 10800 seconds (3 hours), the issued token's
expiration claim is the issuance instant plus the TTL, and verifying any
issued token at or after that instant yields false. -/
theorem claim_C4_verify_after_ttl_invalid (s : Option String) (tc now : Nat)
    (h : tc + JWT_TOKEN_INVALIDATION_TIME ≤ now) :
    JWT_TOKEN_INVALIDATION_TIME = 10800 ∧
    JWT.create_token s tc = Token.signed ⟨s, some (tc + JWT_TOKEN_INVALIDATION_TIME)⟩
      JWT_KEY JWT_ALGORITHM ∧
    JWT.validate_token (JWT.create_token s tc) now = false := by
  refine ⟨rfl, rfl, ?_⟩
  simp [JWT.validate_token, JWT.create_token, JWT.decode_token, expOk]
  omega

/-- Witness for C4 at a concrete instant: a token issued at time 0 is invalid
at time 10800. -/
theorem claim_C4_witness :
    JWT_TOKEN_INVALIDATION_TIME = 10800 ∧
    JWT.create_token (some "u") 0 = Token.signed ⟨some "u", some (0 + JWT_TOKEN_INVALIDATION_TIME)⟩
      JWT_KEY JWT_ALGORITHM ∧
    JWT.validate_token (JWT.create_token (some "u") 0) 10800 = false :=
  claim_C4_verify_after_ttl_invalid (some "u") 0 10800 (by decide)

/-- C10 counterexample: at a concrete sub-less token — correctly signed under
the configured secret and algorithm and unexpired — the bearer gate admits the
request and `get_user_id` returns absent, but post creation does not proceed:
the schema's NOT NULL constraint on `posts.user_id` (`models.py` line 24)
makes the commit raise `IntegrityError`, the blanket `except Exception:`
catches it, and `add_post` returns the 500 Internal outcome instead of a
created post. -/
theorem claim_C10_counterexample :
    JWT.validate_token (Token.signed ⟨none, some 1⟩ JWT_KEY JWT_ALGORITHM) 0 = true ∧
    JWT.get_user_id (Token.signed ⟨none, some 1⟩ JWT_KEY JWT_ALGORITHM) 0 = none ∧
    Endpoints.add_post (Token.signed ⟨none, some 1⟩ JWT_KEY JWT_ALGORITHM) 0 0 "p1" [] [] "x" =
      Except.error HStatus.internal :=
  ⟨rfl, rfl, rfl⟩

/-- C10 (amended): every token signed under the configured secret and
algorithm, unexpired but lacking a `sub` claim, passes `validate_token` (the
bearer-token gate admits the request) yet `get_user_id` returns absent; the
handler then invokes post creation with that absent user identity, the insert
is rejected by the NOT NULL constraint on the post's owner column
(`IntegrityError`), and the request ends in the generic 500 Internal outcome
rather than a created post. -/
theorem claim_C10_subless_token_admitted_then_internal (now : Nat) (fid : String)
    (db : PostDB) (c : Cache) (text : String) :
    JWT.validate_token (Token.signed ⟨none, some (now + 1)⟩ JWT_KEY JWT_ALGORITHM) now = true ∧
    JWT.get_user_id (Token.signed ⟨none, some (now + 1)⟩ JWT_KEY JWT_ALGORITHM) now = none ∧
    Post.add_post db fid
        (JWT.get_user_id (Token.signed ⟨none, some (now + 1)⟩ JWT_KEY JWT_ALGORITHM) now) text =
      Except.error DBError.integrityError ∧
    Endpoints.add_post (Token.signed ⟨none, some (now + 1)⟩ JWT_KEY JWT_ALGORITHM) now 0 fid
        db c text =
      Except.error HStatus.internal := by
  refine ⟨?_, ?_, ?_, ?_⟩ <;>
    simp [JWT.validate_token, JWT.get_user_id, JWT.decode_token, expOk,
      Endpoints.add_post, Endpoints.add_post_body, Post.add_post, PostRepository.create,
      wrap500, PAYLOAD_MAX_SIZE]

/-- C9: for every plaintext `p`, `verify(p, hash(p))` is true; and for every
pair of distinct plaintexts, `verify(p, hash(p'))` is false. Settled against
the spec-modelled hasher, since the bcrypt implementation behind
`User.pwd_context` is third-party code absent from `src/`. -/
theorem claim_C9_hash_verify_roundtrip (salt p q : String) :
    pwd_verify p (pwd_hash salt p) = true ∧
    (p ≠ q → pwd_verify p (pwd_hash salt q) = false) := by
  refine ⟨?_, fun hne => ?_⟩ <;>
    simp [pwd_verify, pwd_hash]
  exact hne

/-- Witness for C9 at concrete plaintexts. -/
theorem claim_C9_witness :
    pwd_verify "pw" (pwd_hash "s" "pw") = true ∧
    pwd_verify "pw" (pwd_hash "s" "pw2") = false :=
  ⟨(claim_C9_hash_verify_roundtrip "s" "pw" "pw2").1,
   (claim_C9_hash_verify_roundtrip "s" "pw" "pw2").2 (by decide)⟩

/-- C7: `verify_credentials` is externally indistinguishable between its two
failure causes — when no user with the email exists it returns false, and
when the user exists but the candidate password differs from the plaintext
whose hash is stored it also returns the same false. -/
theorem claim_C7_auth_failures_indistinguishable (db : UserDB) (email p salt q : String) :
    (UserRepository.get_by_email db email = none →
      User.verify_credentials db email p = false) ∧
    (∀ u, UserRepository.get_by_email db email = some u → u.password = pwd_hash salt q →
      p ≠ q → User.verify_credentials db email p = false) := by
  refine ⟨fun h => ?_, fun u hu hpw hne => ?_⟩
  · simp [User.verify_credentials, User.get_by_email, h]
  · simp [User.verify_credentials, User.get_by_email, hu, hpw, pwd_verify, pwd_hash]
    exact hne

/-- Witness for C7: an unknown email and a known email with a wrong password
both yield false. -/
theorem claim_C7_witness :
    User.verify_credentials [] "a@x.com" "pw" = false ∧
    User.verify_credentials [⟨"id1", "a@x.com", pwd_hash "s" "pw1"⟩] "a@x.com" "pw2" = false :=
  ⟨(claim_C7_auth_failures_indistinguishable [] "a@x.com" "pw" "s" "pw1").1 rfl,
   (claim_C7_auth_failures_indistinguishable [⟨"id1", "a@x.com", pwd_hash "s" "pw1"⟩]
      "a@x.com" "pw2" "s" "pw1").2 ⟨"id1", "a@x.com", pwd_hash "s" "pw1"⟩ rfl rfl (by decide)⟩

/-- No row of a post table answers a lookup for an id held by none of its
rows. -/
theorem get_by_id_eq_none_of_forall_ne (db : PostDB) (pid : String)
    (h : ∀ p ∈ db, p.id ≠ pid) : PostRepository.get_by_id db pid = none := by
  simp only [PostRepository.get_by_id, List.find?_eq_none]
  intro p hp
  simpa using h p hp

/-- Under uniqueness of post ids (the primary-key invariant), erasing the row
matching an id leaves no row with that id. -/
theorem get_by_id_eraseP_eq_none (db : PostDB) (pid : String)
    (hnd : (db.map PostModel.id).Nodup) :
    PostRepository.get_by_id (List.eraseP (fun p => p.id == pid) db) pid = none := by
  induction db with
  | nil => rfl
  | cons hd tl ih =>
    simp only [List.map_cons, List.nodup_cons] at hnd
    by_cases hb : hd.id = pid
    · rw [List.eraseP_cons_of_pos (by simp [hb])]
      refine get_by_id_eq_none_of_forall_ne tl pid (fun p hp hpe => ?_)
      exact hnd.1 (by rw [hb, ← hpe]; exact List.mem_map_of_mem PostModel.id hp)
    · rw [List.eraseP_cons_of_neg (by simp [hb])]
      have hbf : (hd.id == pid) = false := by simp [hb]
      simp only [PostRepository.get_by_id] at ih ⊢
      rw [List.find?_cons, hbf]
      exact ih hnd.2

/-- C8: under the primary-key uniqueness of post ids, `delete` returns false
and leaves the table unchanged when no post with the id exists; when the post
exists, `delete` returns true, a subsequent `get_by_id` on that id returns
`none`, and a second `delete` of the same id (an already-deleted id) returns
false. -/
theorem claim_C8_delete_get_semantics (db : PostDB) (pid : String)
    (hnd : (db.map PostModel.id).Nodup) :
    (PostRepository.get_by_id db pid = none →
      PostRepository.delete db pid = (false, db)) ∧
    (∀ q, PostRepository.get_by_id db pid = some q →
      (PostRepository.delete db pid).1 = true ∧
      PostRepository.get_by_id (PostRepository.delete db pid).2 pid = none ∧
      (PostRepository.delete (PostRepository.delete db pid).2 pid).1 = false) := by
  refine ⟨fun h => ?_, fun q hq => ?_⟩
  · simp [PostRepository.delete, h]
  · have herase := get_by_id_eraseP_eq_none db pid hnd
    refine ⟨by simp [PostRepository.delete, hq], ?_, ?_⟩
    · simpa [PostRepository.delete, hq] using herase
    · simp [PostRepository.delete, hq, herase]

/-- Witness for C8: on a one-post table, deleting an absent id returns false;
deleting the present id returns true, the subsequent lookup is `none`, and
deleting it again returns false. -/
theorem claim_C8_witness :
    PostRepository.delete [⟨"p1", "u", "x"⟩] "zz" = (false, [⟨"p1", "u", "x"⟩]) ∧
    ((PostRepository.delete [⟨"p1", "u", "x"⟩] "p1").1 = true ∧
      PostRepository.get_by_id (PostRepository.delete [⟨"p1", "u", "x"⟩] "p1").2 "p1" = none ∧
      (PostRepository.delete (PostRepository.delete [⟨"p1", "u", "x"⟩] "p1").2 "p1").1 = false) :=
  ⟨(claim_C8_delete_get_semantics [⟨"p1", "u", "x"⟩] "zz" (by simp)).1 rfl,
   (claim_C8_delete_get_semantics [⟨"p1", "u", "x"⟩] "p1" (by simp)).2
     ⟨"p1", "u", "x"⟩ rfl⟩

/-- C5: whenever `add_post` or `delete_post` succeeds, the returned cache is
the fully cleared one — a subsequent lookup returns no previously cached
listing for any key at any instant, not only for the user who wrote. -/
theorem claim_C5_writes_fully_clear_cache (t : Token) (now bodyLen : Nat) (fid : String)
    (dbA dbD : PostDB) (cA cD : Cache) (text pid : String)
    (rA rD : String × PostDB × Cache) :
    (Endpoints.add_post t now bodyLen fid dbA cA text = Except.ok rA →
      rA.2.2 = [] ∧ ∀ k m, cacheGet rA.2.2 k m = none) ∧
    (Endpoints.delete_post t now dbD cD pid = Except.ok rD →
      rD.2.2 = [] ∧ ∀ k m, cacheGet rD.2.2 k m = none) := by
  have hget : ∀ k m, cacheGet ([] : Cache) k m = none := fun k m => rfl
  refine ⟨fun hA => ?_, fun hD => ?_⟩
  · by_cases hv : JWT.validate_token t now
    · by_cases hp : PAYLOAD_MAX_SIZE < bodyLen
      · simp [Endpoints.add_post, hv, hp] at hA
      · rcases rA with ⟨pidA, dbA', cA'⟩
        rcases hc : Post.add_post dbA fid (JWT.get_user_id t now) text with e | ⟨post, db'⟩
        · simp [Endpoints.add_post, Endpoints.add_post_body, wrap500, hv, hp, hc] at hA
        · simp [Endpoints.add_post, Endpoints.add_post_body, wrap500, hv, hp, hc] at hA
          obtain ⟨hA1, hA2, hA3⟩ := hA
          subst hA3
          exact ⟨rfl, hget⟩
    · simp [Endpoints.add_post, hv] at hA
  · by_cases hv : JWT.validate_token t now
    · rcases hdel : Post.delete_post dbD pid with ⟨b, dbD'⟩
      cases b with
      | false => simp [Endpoints.delete_post, Endpoints.delete_post_body, wrap500, hv, hdel] at hD
      | true =>
        rcases rD with ⟨pidD, dbD'', cD'⟩
        simp [Endpoints.delete_post, Endpoints.delete_post_body, wrap500, hv, hdel] at hD
        obtain ⟨hD1, hD2, hD3⟩ := hD
        subst hD3
        exact ⟨rfl, hget⟩
    · simp [Endpoints.delete_post, hv] at hD

/-- Witness for C5: a concrete successful post creation and a concrete
successful post deletion, each leaving the empty cache. -/
theorem claim_C5_witness :
    (("p1", ([⟨"p1", "u", "x"⟩] : PostDB), ([] : Cache)).2.2 = [] ∧
      ∀ k m, cacheGet (("p1", ([⟨"p1", "u", "x"⟩] : PostDB), ([] : Cache)).2.2) k m = none) ∧
    (("p1", ([] : PostDB), ([] : Cache)).2.2 = [] ∧
      ∀ k m, cacheGet (("p1", ([] : PostDB), ([] : Cache)).2.2) k m = none) :=
  ⟨(claim_C5_writes_fully_clear_cache (JWT.create_token (some "u") 0) 0 0 "p1" [] [] []
      [⟨"old", [("q", "y")], 0⟩] "x" "p1" ("p1", [⟨"p1", "u", "x"⟩], []) ("p1", [], [])).1
      rfl,
   (claim_C5_writes_fully_clear_cache (JWT.create_token (some "u") 0) 0 0 "p1"
      [⟨"p1", "u", "x"⟩] [⟨"p1", "u", "x"⟩] [] [⟨"old", [("q", "y")], 0⟩] "x" "p1"
      ("p1", [⟨"p1", "u", "x"⟩], []) ("p1", [], [])).2 rfl⟩

/-- C6: the deletion path never consults the token's subject — for any two
tokens that both pass the bearer-token gate, `delete_post` produces the same
outcome on the same state, whoever the tokens identify. -/
theorem claim_C6_delete_ignores_token_subject (t1 t2 : Token) (now : Nat) (db : PostDB)
    (c : Cache) (pid : String) (h1 : JWT.validate_token t1 now = true)
    (h2 : JWT.validate_token t2 now = true) :
    Endpoints.delete_post t1 now db c pid = Endpoints.delete_post t2 now db c pid := by
  simp [Endpoints.delete_post, h1, h2]

/-- Witness for C6: tokens identifying the distinct subjects "alice" and
"bob" produce the same deletion outcome. -/
theorem claim_C6_witness :
    Endpoints.delete_post (JWT.create_token (some "alice") 0) 0 [⟨"p1", "bob", "x"⟩]
        [] "p1" =
      Endpoints.delete_post (JWT.create_token (some "bob") 0) 0 [⟨"p1", "bob", "x"⟩]
        [] "p1" :=
  claim_C6_delete_ignores_token_subject (JWT.create_token (some "alice") 0)
    (JWT.create_token (some "bob") 0) 0 [⟨"p1", "bob", "x"⟩] [] "p1" rfl rfl

/-- C1: refuted as stated — the claim (and the handler's own docstring) says a
duplicate email yields the Conflict status and never the generic Internal
status, but the second signup with an already-registered email returns the
Internal (500) outcome: the `raise HTTPException(400)` inside the `try:`
block is caught by the blanket `except Exception:` (HTTPException subclasses
Exception) and replaced with the 500. The first signup succeeds. -/
theorem claim_C1_duplicate_email_yields_internal :
    Endpoints.sign_up [] "id1" "s1" "a@x.com" "pw1" 0 =
      Except.ok (JWT.create_token (some "id1") 0, [⟨"id1", "a@x.com", pwd_hash "s1" "pw1"⟩]) ∧
    Endpoints.sign_up [⟨"id1", "a@x.com", pwd_hash "s1" "pw1"⟩] "id2" "s2" "a@x.com" "pw2" 0 =
      Except.error HStatus.internal ∧
    Endpoints.sign_up_body [⟨"id1", "a@x.com", pwd_hash "s1" "pw1"⟩] "id2" "s2" "a@x.com"
        "pw2" 0 =
      Except.error HStatus.badRequest ∧
    HStatus.internal ≠ HStatus.badRequest :=
  ⟨rfl, rfl, rfl, by decide⟩
